import Mathlib

/-!
Verification of the BioSync Pro sensor-data ingestion and rolling-window
logic (src/src/App.tsx) against its specification.

The embedding models the React component state as an explicit record,
the JS regex matches `/H:(\d+)/`, `/T:([\d.]+)/`, `/O:(\d+)/` as leftmost
greedy scans over character lists, JS `parseInt`/`parseFloat` on the
captured groups as functions into `ℤ` / `Option ℚ` (`none` standing for
the JS `NaN`), and the event handlers (`updateData`,
`handleCharacteristicValueChanged`, the demo-mode interval callback,
`connectBluetooth`, the UI buttons) as pure state-transition functions.
-/

set_option maxRecDepth 8000

namespace BioSync

/-! ### Character-level parsing primitives -/

/-- Value of a digits-only capture group, as JS `parseInt` computes it. -/
def digitsToNat (l : List Char) : ℕ :=
  l.foldl (fun n c => 10 * n + (c.toNat - 48)) 0

/-- JS `parseFloat` on inputs drawn from the character class `[0-9.]`
(the only strings the code feeds it): read a maximal integer part, then
optionally a dot and a maximal fraction part; `none` models the JS `NaN`
returned when no number can be read at the front of the string. -/
def parseFloatQ (l : List Char) : Option ℚ :=
  let intPart := l.takeWhile Char.isDigit
  let rest := l.drop intPart.length
  match intPart, rest with
  | [], '.' :: rest2 =>
    let frac := rest2.takeWhile Char.isDigit
    if frac.isEmpty then none
    else some ((digitsToNat frac : ℚ) / (10 : ℚ) ^ frac.length)
  | [], _ => none
  | ds, '.' :: rest2 =>
    let frac := rest2.takeWhile Char.isDigit
    some ((digitsToNat ds : ℚ) + (digitsToNat frac : ℚ) / (10 : ℚ) ^ frac.length)
  | ds, _ => some ((digitsToNat ds : ℚ))

/-- Leftmost match of a regex of the form `K:(cls+)`: scan left to right for
the first position holding the key character, a colon and at least one
character of the class; the capture is the greedy maximal run of class
characters there. This is exactly how the JS regexes `/H:(\d+)/`,
`/T:([\d.]+)/` and `/O:(\d+)/` behave via `String.prototype.match`. -/
def matchKey (key : Char) (cls : Char → Bool) : List Char → Option (List Char)
  | [] => none
  | [_] => none
  | c :: c2 :: rest =>
    if c = key ∧ c2 = ':' then
      let cap := rest.takeWhile cls
      if cap.isEmpty then matchKey key cls (c2 :: rest) else some cap
    else matchKey key cls (c2 :: rest)

/-- The character class `[\d.]` of the temperature regex. -/
def isFloatChar (c : Char) : Bool := c.isDigit || c = '.'

/-- Capture group of `text.match(/H:(\d+)/)`. -/
def hrMatch (t : List Char) : Option (List Char) := matchKey 'H' Char.isDigit t

/-- Capture group of `text.match(/T:([\d.]+)/)`. -/
def tempMatch (t : List Char) : Option (List Char) := matchKey 'T' isFloatChar t

/-- Capture group of `text.match(/O:(\d+)/)`. -/
def spo2Match (t : List Char) : Option (List Char) := matchKey 'O' Char.isDigit t

/-- Whitespace characters stripped by JS `String.prototype.trim`. -/
def isJsSpace (c : Char) : Bool :=
  c = ' ' || c = '\t' || c = '\n' || c = '\r'

/-- JS `String.prototype.trim`: strip whitespace from both ends. -/
def jsTrim (l : List Char) : List Char :=
  ((l.dropWhile isJsSpace).reverse.dropWhile isJsSpace).reverse

/-! ### Data model -/

/-- One chart sample (`interface DataPoint` in App.tsx). `temperature` is
`Option ℚ` because the JS number stored there comes from `parseFloat` and can
be `NaN` (modelled as `none`). -/
structure DataPoint where
  time : String
  heartRate : ℤ
  temperature : Option ℚ
  oxygen : ℤ
deriving DecidableEq

def MAX_DATA_POINTS : ℕ := 60

/-- The React component state of `App`. -/
structure AppState where
  isConnected : Bool
  isDemoMode : Bool
  device : Option String
  data : List DataPoint
  currentHR : ℤ
  currentTemp : Option ℚ
  currentSpO2 : ℤ
  logs : List String
  errorMsg : Option String
deriving DecidableEq

/-- The `useState` initializers. -/
def initialState : AppState :=
  { isConnected := false, isDemoMode := false, device := none, data := [],
    currentHR := 0, currentTemp := some 0, currentSpO2 := 0,
    logs := [], errorMsg := none }

/-- `addLog`: prepend a timestamped entry, keeping at most the previous four. -/
def addLog (s : AppState) (ts : String) (msg : String) : AppState :=
  { s with logs := ("[" ++ ts ++ "] " ++ msg) :: s.logs.take 4 }

/-- `updateData`: set the three current values and append a sample to the
window; when the length exceeds `MAX_DATA_POINTS` the front is dropped
(`newData.slice(newData.length - MAX_DATA_POINTS)`). -/
def updateData (s : AppState) (ts : String) (hr : ℤ) (temp : Option ℚ)
    (spo2 : ℤ) : AppState :=
  let newData := s.data ++ [⟨ts, hr, temp, spo2⟩]
  { s with
    currentHR := hr, currentTemp := temp, currentSpO2 := spo2,
    data :=
      if MAX_DATA_POINTS < newData.length then
        newData.drop (newData.length - MAX_DATA_POINTS)
      else newData }

/-- The notification handler `handleCharacteristicValueChanged`, after the
byte buffer has been decoded to text. The listener is registered exactly once,
inside `connectBluetooth`, so the function instance the characteristic keeps
invoking closes over the `currentHR`/`currentTemp`/`currentSpO2` constants of
the render in which the connect ran — a stale closure: every later
notification reads those registration-time values, not the live state (the
source guards the demo generator against exactly this trap with
closure-local baselines, but not this handler). `frozenHR`/`frozenTemp`/
`frozenSpO2` are the captured values; the writes (`setCurrentHR` etc. with
fresh arguments, and `setData` with a functional updater) act on the live
state `s`. Trim, match the three patterns, carry the frozen values for
absent fields, and append via `updateData` when at least one field matched. -/
def handleCharacteristicValueChanged (frozenHR : ℤ) (frozenTemp : Option ℚ)
    (frozenSpO2 : ℤ) (s : AppState) (ts : String)
    (payload : List Char) : AppState :=
  let text := jsTrim payload
  let hrM := hrMatch text
  let tempM := tempMatch text
  let spo2M := spo2Match text
  let hr := match hrM with | some c => (digitsToNat c : ℤ) | none => frozenHR
  let temp := match tempM with | some c => parseFloatQ c | none => frozenTemp
  let spo2 := match spo2M with | some c => (digitsToNat c : ℤ) | none => frozenSpO2
  if hrM.isSome || tempM.isSome || spo2M.isSome then
    updateData s ts hr temp spo2
  else s

/-! ### Demo-mode generator -/

/-- Closure state of the demo-mode interval callback
(`mockHR`, `mockTemp`, `mockSpO2`). -/
structure DemoState where
  mockHR : ℤ
  mockTemp : ℚ
  mockSpO2 : ℤ
deriving DecidableEq

/-- The initial baseline values of the demo closure. -/
def demoInit : DemoState := { mockHR := 75, mockTemp := 365 / 10, mockSpO2 := 98 }

/-- The `Math.random()` draws one tick may consume, in source order. -/
structure Rand where
  rHR : ℚ
  rTemp : ℚ
  rOx : ℚ
  rDir : ℚ
deriving DecidableEq

/-- `Math.random()` yields values in `[0, 1)`. -/
def Rand.valid (r : Rand) : Prop :=
  0 ≤ r.rHR ∧ r.rHR < 1 ∧ 0 ≤ r.rTemp ∧ r.rTemp < 1 ∧
  0 ≤ r.rOx ∧ r.rOx < 1 ∧ 0 ≤ r.rDir ∧ r.rDir < 1

/-- `parseFloat(x.toFixed(1))`: round to one decimal digit. -/
def toFixed1 (q : ℚ) : ℚ := ((round (10 * q) : ℤ) : ℚ) / 10

/-- One demo tick: the new closure state, plus the `(hr, temp, spo2)` triple
passed to `updateData`. -/
def demoTick (s : DemoState) (r : Rand) : DemoState × ℤ × ℚ × ℤ :=
  let changeHR : ℤ := ⌊(5 : ℚ) * r.rHR⌋ - 2
  let mockHR := max 60 (min 110 (s.mockHR + changeHR))
  let changeTemp := r.rTemp * (2 / 10) - 1 / 10
  let mockTemp := max 36 (min (373 / 10) (s.mockTemp + changeTemp))
  let finalTemp := toFixed1 mockTemp
  let mockSpO2 :=
    if (7 : ℚ) / 10 < r.rOx then
      let changeSpO2 : ℤ := if (1 : ℚ) / 2 < r.rDir then 1 else -1
      max 95 (min 100 (s.mockSpO2 + changeSpO2))
    else s.mockSpO2
  (⟨mockHR, mockTemp, mockSpO2⟩, mockHR, finalTemp, mockSpO2)

/-- Iterate demo ticks from the initial closure state. -/
def demoRun (rs : List Rand) : DemoState :=
  rs.foldl (fun s r => (demoTick s r).1) demoInit

/-- The `updateData(mockHR, finalTemp, mockSpO2)` call of one demo tick. -/
def demoApply (s : AppState) (ts : String) (d : DemoState) (r : Rand) : AppState :=
  updateData s ts (demoTick d r).2.1 (some (demoTick d r).2.2.1) (demoTick d r).2.2.2

/-! ### UI state transitions (connect / disconnect / demo toggle) -/

/-- The two flags the mutual-exclusion claim is about. -/
structure UiState where
  isConnected : Bool
  isDemoMode : Bool
deriving DecidableEq, Fintype

inductive UiEvent where
  | connectOk
  | connectFail
  | disconnect
  | demoToggle
deriving DecidableEq, Fintype

/-- One UI transition. Guards reflect the buttons: the connect button is
rendered only while disconnected and is disabled in demo mode; disconnect is
available only while connected; the demo-toggle button is always available
and runs `setIsDemoMode(!isDemoMode)` with no other effect. A successful
connect runs `setIsConnected(true); setIsDemoMode(false)`. -/
def uiStep (s : UiState) : UiEvent → Option UiState
  | .connectOk => if s.isConnected || s.isDemoMode then none else some ⟨true, false⟩
  | .connectFail => if s.isConnected || s.isDemoMode then none else some s
  | .disconnect => if s.isConnected then some ⟨false, s.isDemoMode⟩ else none
  | .demoToggle => some ⟨s.isConnected, !s.isDemoMode⟩

def initUi : UiState := ⟨false, false⟩

/-- Run a list of UI events through a step function. -/
def runWith (step : UiState → UiEvent → Option UiState) :
    UiState → List UiEvent → Option UiState
  | s, [] => some s
  | s, e :: es =>
    match step s e with
    | some s2 => runWith step s2 es
    | none => none

def uiRun : UiState → List UiEvent → Option UiState := runWith uiStep

/-- `uiStep` with the demo toggle additionally forbidden while connected:
the discipline under which mutual exclusion does hold. -/
def uiStepExclusive (s : UiState) : UiEvent → Option UiState
  | .demoToggle => if s.isConnected then none else some ⟨s.isConnected, !s.isDemoMode⟩
  | .connectOk => uiStep s .connectOk
  | .connectFail => uiStep s .connectFail
  | .disconnect => uiStep s .disconnect

def uiRunExclusive : UiState → List UiEvent → Option UiState := runWith uiStepExclusive

/-! ### connectBluetooth -/

/-- A JS error as the catch block observes it: its `toString()` text and its
`.message`. -/
structure ConnError where
  errText : String
  message : String
deriving DecidableEq

/-- Outcome of a connection attempt: each failure constructor is one
`throw`/`await` site of `connectBluetooth`, in source order. `notifyFail`
covers failures of `getPrimaryService`, `getCharacteristic` and
`startNotifications` (identical observable effects). -/
inductive ConnectOutcome where
  | noApi
  | requestFail (e : ConnError)
  | gattFail (devName : String) (e : ConnError)
  | notifyFail (devName : String) (e : ConnError)
  | ok (devName : String)
deriving DecidableEq

def ConnectOutcome.failed : ConnectOutcome → Bool
  | .ok _ => false
  | _ => true

/-- Does `needle` occur at the front of the second list? -/
def startsSeq : List Char → List Char → Bool
  | [], _ => true
  | _ :: _, [] => false
  | a :: as, b :: bs => a == b && startsSeq as bs

/-- JS `String.prototype.includes`. -/
def containsSeq (needle : List Char) : List Char → Bool
  | [] => needle.isEmpty
  | c :: rest => startsSeq needle (c :: rest) || containsSeq needle rest

/-- The catch block's message selection. -/
def catchMsg (e : ConnError) : String :=
  if containsSeq "permissions policy".toList e.errText.toList then
    "权限错误: 请在本地 localhost 或 HTTPS 环境运行。"
  else "连接失败: " ++ e.message

/-- The error thrown when `navigator.bluetooth` is absent. -/
def noApiError : ConnError :=
  { errText := "Error: 不支持 Web Bluetooth API", message := "不支持 Web Bluetooth API" }

/-- `connectBluetooth` as a function of the attempt's outcome. The second
component counts how many times an error message was surfaced
(`setErrorMsg` with a non-null message). -/
def connectBluetooth (s : AppState) (ts : String) (o : ConnectOutcome) :
    AppState × ℕ :=
  let s0 := { s with errorMsg := none }
  match o with
  | .noApi => ({ s0 with errorMsg := some (catchMsg noApiError) }, 1)
  | .requestFail e =>
    let s1 := addLog s0 ts "搜索设备..."
    ({ s1 with errorMsg := some (catchMsg e) }, 1)
  | .gattFail dev e =>
    let s1 := addLog s0 ts "搜索设备..."
    let s2 := { addLog s1 ts ("设备: " ++ dev) with device := some dev }
    ({ s2 with errorMsg := some (catchMsg e) }, 1)
  | .notifyFail dev e =>
    let s1 := addLog s0 ts "搜索设备..."
    let s2 := { addLog s1 ts ("设备: " ++ dev) with device := some dev }
    let s3 := addLog s2 ts "已连接"
    ({ s3 with errorMsg := some (catchMsg e) }, 1)
  | .ok dev =>
    let s1 := addLog s0 ts "搜索设备..."
    let s2 := { addLog s1 ts ("设备: " ++ dev) with device := some dev }
    let s3 := addLog s2 ts "已连接"
    let s4 := addLog s3 ts "监听数据..."
    ({ s4 with isConnected := true, isDemoMode := false }, 0)

/-! ### Sequences of appends -/

/-- One `updateData` input: timestamp plus the three values. -/
structure SampleInput where
  ts : String
  hr : ℤ
  temp : Option ℚ
  spo2 : ℤ

def SampleInput.toDataPoint (x : SampleInput) : DataPoint :=
  ⟨x.ts, x.hr, x.temp, x.spo2⟩

def applyInput (s : AppState) (x : SampleInput) : AppState :=
  updateData s x.ts x.hr x.temp x.spo2

/-- A sequence of `updateData` appends starting from the initial state. -/
def appendRun (l : List SampleInput) : AppState :=
  l.foldl applyInput initialState

/-- Modelled from the spec: the shape `<digits>[.<digits>]` (digits with at
most one decimal point) that the spec asserts every temperature capture
group has. -/
def specTempShape (l : List Char) : Bool :=
  let d1 := l.takeWhile Char.isDigit
  let rest := l.drop d1.length
  !d1.isEmpty &&
    (rest.isEmpty ||
      (match rest with
       | '.' :: d2 => !d2.isEmpty && d2.all Char.isDigit
       | _ => false))

/-- The demo-generator state invariant: each baseline lies within its clamp
range. It holds of the initial closure state and is preserved by every tick. -/
def DemoInv (d : DemoState) : Prop :=
  60 ≤ d.mockHR ∧ d.mockHR ≤ 110 ∧ (36 : ℚ) ≤ d.mockTemp ∧
  d.mockTemp ≤ 373 / 10 ∧ 95 ≤ d.mockSpO2 ∧ d.mockSpO2 ≤ 100

/-! ### Helper lemmas about the rolling window -/

lemma updateData_data (s : AppState) (ts : String) (hr : ℤ) (temp : Option ℚ)
    (spo2 : ℤ) :
    (updateData s ts hr temp spo2).data =
      (s.data ++ [(⟨ts, hr, temp, spo2⟩ : DataPoint)]).drop
        (s.data.length + 1 - MAX_DATA_POINTS) := by
  unfold updateData
  by_cases h : MAX_DATA_POINTS <
      (s.data ++ [(⟨ts, hr, temp, spo2⟩ : DataPoint)]).length
  · simp only [h, if_true]
    congr 1
    simp
  · simp only [h, if_false]
    simp only [List.length_append, List.length_cons, List.length_nil] at h
    have h0 : s.data.length + 1 - MAX_DATA_POINTS = 0 := by omega
    rw [h0, List.drop_zero]

lemma updateData_getLast (s : AppState) (ts : String) (hr : ℤ) (temp : Option ℚ)
    (spo2 : ℤ) :
    (updateData s ts hr temp spo2).data.getLast? =
      some (⟨ts, hr, temp, spo2⟩ : DataPoint) := by
  rw [updateData_data]
  rw [List.drop_append_of_le_length
    (by have hM : MAX_DATA_POINTS = 60 := rfl; omega)]
  exact List.getLast?_concat _

lemma foldl_applyInput_data (l : List SampleInput) : ∀ (s : AppState),
    s.data.length ≤ MAX_DATA_POINTS →
    (l.foldl applyInput s).data =
      (s.data ++ l.map SampleInput.toDataPoint).drop
        (s.data.length + l.length - MAX_DATA_POINTS) := by
  induction l with
  | nil =>
    intro s h
    simp only [List.foldl_nil, List.map_nil, List.append_nil, List.length_nil]
    have h0 : s.data.length + 0 - MAX_DATA_POINTS = 0 := by omega
    rw [h0, List.drop_zero]
  | cons x l ih =>
    intro s h
    have hstep : (applyInput s x).data =
        (s.data ++ [x.toDataPoint]).drop (s.data.length + 1 - MAX_DATA_POINTS) :=
      updateData_data s x.ts x.hr x.temp x.spo2
    have hlen : (applyInput s x).data.length ≤ MAX_DATA_POINTS := by
      rw [hstep, List.length_drop]
      simp only [List.length_append, List.length_cons, List.length_nil]
      omega
    rw [List.foldl_cons, ih (applyInput s x) hlen, hstep, List.length_drop]
    rw [← List.drop_append_of_le_length (show s.data.length + 1 - MAX_DATA_POINTS ≤
      (s.data ++ [x.toDataPoint]).length by
        simp only [List.length_append, List.length_cons, List.length_nil]; omega)]
    rw [List.drop_drop]
    simp only [List.length_append, List.length_cons, List.length_nil, List.map_cons]
    congr 1
    · omega
    · simp

lemma appendRun_data (l : List SampleInput) :
    (appendRun l).data =
      (l.map SampleInput.toDataPoint).drop (l.length - MAX_DATA_POINTS) := by
  have h := foldl_applyInput_data l initialState
    (by simp [initialState, MAX_DATA_POINTS])
  simpa [appendRun, initialState] using h

/-! ### C1 -/

/-- C1: the Window is bounded at capacity 60 with strict FIFO eviction. For
every sequence of appends via `updateData` starting from the empty window the
length never exceeds 60; one further append yields exactly
`(window ++ [new]).drop (length + 1 - 60)`, i.e. the single oldest sample is
removed precisely when the append would make the length exceed 60 (drop index
1 at length 60, drop index 0 below); and after appending 61 samples in
sequence the length is 60 and the first element is the second sample
appended. -/
theorem c1_window_capacity_fifo :
    (∀ l : List SampleInput, (appendRun l).data.length ≤ MAX_DATA_POINTS) ∧
    (∀ (l : List SampleInput) (x : SampleInput),
      (appendRun (l ++ [x])).data =
        ((appendRun l).data ++ [x.toDataPoint]).drop
          ((appendRun l).data.length + 1 - MAX_DATA_POINTS)) ∧
    (∀ f : ℕ → SampleInput,
      (appendRun ((List.range 61).map f)).data.length = 60 ∧
      (appendRun ((List.range 61).map f)).data.head? =
        some (f 1).toDataPoint) := by
  refine ⟨?_, ?_, ?_⟩
  · intro l
    rw [appendRun_data, List.length_drop, List.length_map]
    omega
  · intro l x
    have h : appendRun (l ++ [x]) = applyInput (appendRun l) x := by
      simp [appendRun, List.foldl_append]
    rw [h]
    exact updateData_data _ _ _ _ _
  · intro f
    constructor
    · rw [appendRun_data, List.length_drop, List.length_map, List.length_map,
        List.length_range]
      rfl
    · rw [appendRun_data, List.head?_eq_getElem?, List.getElem?_drop]
      simp only [List.length_map, List.length_range]
      rw [List.getElem?_map, List.getElem?_map,
        List.getElem?_range (by decide : 61 - MAX_DATA_POINTS + 0 < 61)]
      rfl

/-! ### C10 -/

/-- C10: the three instantaneous-value displays always track the newest
sample: after `updateData` (and hence after every hardware-parsed append via
`handleCharacteristicValueChanged` and every demo-generated append via
`demoApply`), `currentHR`, `currentTemp` and `currentSpO2` equal exactly the
fields of the last sample of the window. -/
theorem c10_currents_track_last :
    (∀ (s : AppState) (ts : String) (hr : ℤ) (temp : Option ℚ) (spo2 : ℤ),
      (updateData s ts hr temp spo2).currentHR = hr ∧
      (updateData s ts hr temp spo2).currentTemp = temp ∧
      (updateData s ts hr temp spo2).currentSpO2 = spo2 ∧
      (updateData s ts hr temp spo2).data.getLast? =
        some ⟨ts, (updateData s ts hr temp spo2).currentHR,
          (updateData s ts hr temp spo2).currentTemp,
          (updateData s ts hr temp spo2).currentSpO2⟩) ∧
    (∀ (fHR : ℤ) (fT : Option ℚ) (fS : ℤ) (s : AppState) (ts : String)
        (p : List Char),
      ((hrMatch (jsTrim p)).isSome || (tempMatch (jsTrim p)).isSome ||
        (spo2Match (jsTrim p)).isSome) = true →
      (handleCharacteristicValueChanged fHR fT fS s ts p).data.getLast? =
        some ⟨ts, (handleCharacteristicValueChanged fHR fT fS s ts p).currentHR,
          (handleCharacteristicValueChanged fHR fT fS s ts p).currentTemp,
          (handleCharacteristicValueChanged fHR fT fS s ts p).currentSpO2⟩) ∧
    (∀ (s : AppState) (ts : String) (d : DemoState) (r : Rand),
      (demoApply s ts d r).data.getLast? =
        some ⟨ts, (demoApply s ts d r).currentHR,
          (demoApply s ts d r).currentTemp, (demoApply s ts d r).currentSpO2⟩) := by
  have hup : ∀ (s : AppState) (ts : String) (hr : ℤ) (temp : Option ℚ) (spo2 : ℤ),
      (updateData s ts hr temp spo2).data.getLast? =
        some ⟨ts, (updateData s ts hr temp spo2).currentHR,
          (updateData s ts hr temp spo2).currentTemp,
          (updateData s ts hr temp spo2).currentSpO2⟩ := by
    intro s ts hr temp spo2
    exact updateData_getLast s ts hr temp spo2
  refine ⟨fun s ts hr temp spo2 => ⟨rfl, rfl, rfl, hup s ts hr temp spo2⟩, ?_, ?_⟩
  · intro fHR fT fS s ts p h
    simp only [handleCharacteristicValueChanged, h, if_true]
    apply hup
  · intro s ts d r
    apply hup

/-- Witness for C10 at the concrete payload `"H:5"` (which appends) and the
initial state. -/
theorem c10_witness :
    ((hrMatch (jsTrim ("H:5".toList))).isSome ||
      (tempMatch (jsTrim ("H:5".toList))).isSome ||
      (spo2Match (jsTrim ("H:5".toList))).isSome) = true ∧
    (handleCharacteristicValueChanged 0 (some 0) 0 initialState "00:00:01"
        ("H:5".toList)).data.getLast? =
      some ⟨"00:00:01",
        (handleCharacteristicValueChanged 0 (some 0) 0 initialState "00:00:01"
          ("H:5".toList)).currentHR,
        (handleCharacteristicValueChanged 0 (some 0) 0 initialState "00:00:01"
          ("H:5".toList)).currentTemp,
        (handleCharacteristicValueChanged 0 (some 0) 0 initialState "00:00:01"
          ("H:5".toList)).currentSpO2⟩ :=
  ⟨by decide,
    c10_currents_track_last.2.1 0 (some 0) 0 initialState "00:00:01"
      ("H:5".toList) (by decide)⟩

/-! ### C2 -/

/-- C2 (code bug, stale closure): the claim requires absent fields to carry
forward the most recently appended sample's values, but the registered
listener reads the `currentHR`/`currentTemp`/`currentSpO2` values frozen at
the connect-time render. Concrete failing run with the listener registered at
a fresh load (frozen values `0 / 0 / 0`): the first notification
`H:80,T:36.5,O:96` appends `{80, 36.5, 96}`; the second notification `H:81`
then appends `{81, 0, 0}` — not the `{81, 36.5, 96}` the claim requires. -/
theorem c2_stale_closure_failure :
    (handleCharacteristicValueChanged 0 (some 0) 0
        (handleCharacteristicValueChanged 0 (some 0) 0 initialState "00:00:01"
          ("H:80,T:36.5,O:96".toList)) "00:00:02" ("H:81".toList)).data =
      [⟨"00:00:01", 80, some (365 / 10), 96⟩, ⟨"00:00:02", 81, some 0, 0⟩] ∧
    (⟨"00:00:02", 81, some 0, 0⟩ : DataPoint) ≠
      ⟨"00:00:02", 81, some (365 / 10), 96⟩ := by
  have h1 : hrMatch (jsTrim ("H:80,T:36.5,O:96".toList)) = some ['8', '0'] := by
    decide
  have h2 : tempMatch (jsTrim ("H:80,T:36.5,O:96".toList)) =
      some ['3', '6', '.', '5'] := by decide
  have h3 : spo2Match (jsTrim ("H:80,T:36.5,O:96".toList)) = some ['9', '6'] := by
    decide
  have h4 : ((digitsToNat ['8', '0'] : ℕ) : ℤ) = 80 := by decide
  have h5 : parseFloatQ ['3', '6', '.', '5'] = some (365 / 10) := by
    have e : parseFloatQ ['3', '6', '.', '5'] =
        some ((digitsToNat ['3', '6'] : ℚ) +
          (digitsToNat ['5'] : ℚ) / (10 : ℚ) ^ (1 : ℕ)) := rfl
    rw [e, show digitsToNat ['3', '6'] = 36 from by decide,
      show digitsToNat ['5'] = 5 from by decide]
    norm_num
  have h6 : ((digitsToNat ['9', '6'] : ℕ) : ℤ) = 96 := by decide
  have m1 : hrMatch (jsTrim ("H:81".toList)) = some ['8', '1'] := by decide
  have m2 : tempMatch (jsTrim ("H:81".toList)) = none := by decide
  have m3 : spo2Match (jsTrim ("H:81".toList)) = none := by decide
  have m4 : ((digitsToNat ['8', '1'] : ℕ) : ℤ) = 81 := by decide
  have e1 : handleCharacteristicValueChanged 0 (some 0) 0 initialState "00:00:01"
      ("H:80,T:36.5,O:96".toList) =
      updateData initialState "00:00:01" 80 (some (365 / 10)) 96 := by
    simp only [handleCharacteristicValueChanged, h1, h2, h3, h4, h5, h6,
      Option.isSome_some, Bool.true_or, Bool.or_self, if_true]
  have e2 : ∀ s2 : AppState, handleCharacteristicValueChanged 0 (some 0) 0 s2
      "00:00:02" ("H:81".toList) = updateData s2 "00:00:02" 81 (some 0) 0 := by
    intro s2
    simp only [handleCharacteristicValueChanged, m1, m2, m3, m4,
      Option.isSome_some, Option.isSome_none, Bool.true_or, Bool.or_false,
      if_true]
  constructor
  · rw [e1, e2]
    simp [updateData, initialState, MAX_DATA_POINTS]
  · norm_num [DataPoint.mk.injEq]

/-! ### C6 -/

/-- C6: a payload matching none of the three patterns has no observable
effect: the handler returns the state unchanged (in particular the window's
length and contents and the three current values are unchanged), whatever
values the listener's closure captured. -/
theorem c6_unrecognized_payload_ignored (fHR : ℤ) (fT : Option ℚ) (fS : ℤ)
    (s : AppState) (ts : String)
    (p : List Char) (h1 : hrMatch (jsTrim p) = none)
    (h2 : tempMatch (jsTrim p) = none) (h3 : spo2Match (jsTrim p) = none) :
    handleCharacteristicValueChanged fHR fT fS s ts p = s ∧
    (handleCharacteristicValueChanged fHR fT fS s ts p).data = s.data ∧
    (handleCharacteristicValueChanged fHR fT fS s ts p).data.length =
      s.data.length ∧
    (handleCharacteristicValueChanged fHR fT fS s ts p).currentHR =
      s.currentHR ∧
    (handleCharacteristicValueChanged fHR fT fS s ts p).currentTemp =
      s.currentTemp ∧
    (handleCharacteristicValueChanged fHR fT fS s ts p).currentSpO2 =
      s.currentSpO2 := by
  have h : handleCharacteristicValueChanged fHR fT fS s ts p = s := by
    simp [handleCharacteristicValueChanged, h1, h2, h3]
  exact ⟨h, by rw [h], by rw [h], by rw [h], by rw [h], by rw [h]⟩

/-- Witness for C6 at the concrete payload `"hello"` and the initial state. -/
theorem c6_witness :
    (hrMatch (jsTrim ("hello".toList)) = none ∧
     tempMatch (jsTrim ("hello".toList)) = none ∧
     spo2Match (jsTrim ("hello".toList)) = none) ∧
    handleCharacteristicValueChanged 0 (some 0) 0 initialState "00:00:00"
      ("hello".toList) = initialState :=
  ⟨⟨by decide, by decide, by decide⟩,
    (c6_unrecognized_payload_ignored 0 (some 0) 0 initialState "00:00:00"
      ("hello".toList) (by decide) (by decide) (by decide)).1⟩

/-! ### C8 -/

/-- C8: processing the payload `H:82,T:36.9,O:97` appends
`Sample{82, 36.9, 97}` for every prior state and every set of
closure-captured values (all three fields present, no carry-forward
involved). -/
theorem c8_full_payload (fHR : ℤ) (fT : Option ℚ) (fS : ℤ) (s : AppState)
    (ts : String) :
    handleCharacteristicValueChanged fHR fT fS s ts
        ("H:82,T:36.9,O:97".toList) =
      updateData s ts 82 (some (369 / 10)) 97 ∧
    (handleCharacteristicValueChanged fHR fT fS s ts
        ("H:82,T:36.9,O:97".toList)).data.getLast? =
      some ⟨ts, 82, some (369 / 10), 97⟩ := by
  have h1 : hrMatch (jsTrim ("H:82,T:36.9,O:97".toList)) = some ['8', '2'] := by
    decide
  have h2 : tempMatch (jsTrim ("H:82,T:36.9,O:97".toList)) =
      some ['3', '6', '.', '9'] := by decide
  have h3 : spo2Match (jsTrim ("H:82,T:36.9,O:97".toList)) = some ['9', '7'] := by
    decide
  have h4 : ((digitsToNat ['8', '2'] : ℕ) : ℤ) = 82 := by decide
  have h5 : parseFloatQ ['3', '6', '.', '9'] = some (369 / 10) := by
    have e : parseFloatQ ['3', '6', '.', '9'] =
        some ((digitsToNat ['3', '6'] : ℚ) +
          (digitsToNat ['9'] : ℚ) / (10 : ℚ) ^ (1 : ℕ)) := rfl
    rw [e, show digitsToNat ['3', '6'] = 36 from by decide,
      show digitsToNat ['9'] = 9 from by decide]
    norm_num
  have h6 : ((digitsToNat ['9', '7'] : ℕ) : ℤ) = 97 := by decide
  have e : handleCharacteristicValueChanged fHR fT fS s ts
      ("H:82,T:36.9,O:97".toList) =
      updateData s ts 82 (some (369 / 10)) 97 := by
    simp only [handleCharacteristicValueChanged, h1, h2, h3, h4, h5, h6,
      Option.isSome_some, Bool.true_or, Bool.or_self, if_true]
  exact ⟨e, by rw [e]; exact updateData_getLast _ _ _ _ _⟩

/-! ### Helper lemmas about the regex scan -/

lemma takeWhile_all_of_stop {p : Char → Bool} (l : List Char) (x : Char)
    (t : List Char) (hall : ∀ c ∈ l, p c = true) (hx : p x = false) :
    (l ++ x :: t).takeWhile p = l := by
  rw [List.takeWhile_append_of_pos hall,
    List.takeWhile_cons_of_neg (by simp [hx]), List.append_nil]

lemma dropWhile_eq_self_of_none {p : Char → Bool} (l : List Char)
    (h : ∀ c ∈ l, p c = false) : l.dropWhile p = l := by
  cases l with
  | nil => rfl
  | cons a t =>
    exact List.dropWhile_cons_of_neg (by simp [h a (List.mem_cons_self a t)])

lemma jsTrim_eq_self (l : List Char) (h : ∀ c ∈ l, isJsSpace c = false) :
    jsTrim l = l := by
  unfold jsTrim
  rw [dropWhile_eq_self_of_none l h,
    dropWhile_eq_self_of_none l.reverse (fun c hc => h c (List.mem_reverse.mp hc)),
    List.reverse_reverse]

/-- When the very first position matches, the capture is the maximal class
run there, and it ends at the first non-class character. -/
lemma matchKey_at_head (key : Char) (cls : Char → Bool) (d t : List Char)
    (hd : d ≠ []) (hall : ∀ c ∈ d, cls c = true) (hstop : cls ',' = false) :
    matchKey key cls (key :: ':' :: (d ++ ',' :: t)) = some d := by
  simp only [matchKey, and_self, if_true]
  rw [takeWhile_all_of_stop d ',' t hall hstop,
    if_neg (by simp [List.isEmpty_iff, hd])]

lemma matchKey_none_of_not_mem (key : Char) (cls : Char → Bool) :
    ∀ l : List Char, key ∉ l → matchKey key cls l = none := by
  intro l
  induction l with
  | nil => intro _; rfl
  | cons a t ih =>
    intro h
    cases t with
    | nil => rfl
    | cons b u =>
      have ha : ¬(a = key ∧ b = ':') := fun hc => h (hc.1 ▸ List.mem_cons_self a _)
      simp only [matchKey, if_neg ha]
      exact ih (fun hm => h (List.mem_cons_of_mem a hm))

lemma matchKey_sound (key : Char) (cls : Char → Bool) :
    ∀ l c : List Char, matchKey key cls l = some c →
      c ≠ [] ∧ ∀ ch ∈ c, cls ch = true := by
  intro l
  induction l with
  | nil => intro c h; simp [matchKey] at h
  | cons a t ih =>
    cases t with
    | nil => intro c h; simp [matchKey] at h
    | cons b u =>
      intro c h
      simp only [matchKey] at h
      by_cases hc : a = key ∧ b = ':'
      · rw [if_pos hc] at h
        by_cases he : (u.takeWhile cls).isEmpty = true
        · rw [if_pos he] at h
          exact ih c h
        · rw [if_neg he] at h
          obtain rfl : u.takeWhile cls = c := by simpa using h
          exact ⟨fun hnil => he (by simp [List.isEmpty_iff, hnil]),
            fun ch hch => List.mem_takeWhile_imp hch⟩
      · rw [if_neg hc] at h
        exact ih c h

lemma isJsSpace_false_of_digit {c : Char} (h : Char.isDigit c = true) :
    isJsSpace c = false := by
  by_contra hc
  rw [Bool.not_eq_false] at hc
  unfold isJsSpace at hc
  simp only [Bool.or_eq_true, decide_eq_true_eq] at hc
  rcases hc with ((rfl | rfl) | rfl) | rfl <;> exact absurd h (by decide)

lemma isJsSpace_false_of_floatChar {c : Char} (h : isFloatChar c = true) :
    isJsSpace c = false := by
  unfold isFloatChar at h
  simp only [Bool.or_eq_true, decide_eq_true_eq] at h
  rcases h with h | rfl
  · exact isJsSpace_false_of_digit h
  · decide

/-! ### C9 -/

/-- C9: first occurrence wins. On a payload carrying two occurrences of the
same field (`K:d1,K:d2`), the leftmost regex match captures `d1` for each of
the `H:`, `T:` and `O:` patterns, and the handler stores the value of `d1`
(ignoring `d2`), as in `H:70,H:200` ↦ heart rate 70. -/
theorem c9_first_occurrence_wins :
    (∀ d1 d2 : List Char, d1 ≠ [] → (∀ c ∈ d1, Char.isDigit c = true) →
      (∀ c ∈ d2, Char.isDigit c = true) →
      hrMatch ("H:".toList ++ d1 ++ ",H:".toList ++ d2) = some d1 ∧
      spo2Match ("O:".toList ++ d1 ++ ",O:".toList ++ d2) = some d1) ∧
    (∀ f1 f2 : List Char, f1 ≠ [] → (∀ c ∈ f1, isFloatChar c = true) →
      (∀ c ∈ f2, isFloatChar c = true) →
      tempMatch ("T:".toList ++ f1 ++ ",T:".toList ++ f2) = some f1) ∧
    (∀ (fHR : ℤ) (fT : Option ℚ) (fS : ℤ) (s : AppState) (ts : String)
        (d1 d2 : List Char), d1 ≠ [] →
      (∀ c ∈ d1, Char.isDigit c = true) → (∀ c ∈ d2, Char.isDigit c = true) →
      handleCharacteristicValueChanged fHR fT fS s ts
          ("H:".toList ++ d1 ++ ",H:".toList ++ d2) =
        updateData s ts ((digitsToNat d1 : ℕ) : ℤ) fT fS) := by
  have eH : ∀ d1 d2 : List Char, "H:".toList ++ d1 ++ ",H:".toList ++ d2 =
      'H' :: ':' :: (d1 ++ ',' :: ('H' :: ':' :: d2)) := by
    intro d1 d2
    show ['H', ':'] ++ d1 ++ [',', 'H', ':'] ++ d2 = _
    simp
  have eO : ∀ d1 d2 : List Char, "O:".toList ++ d1 ++ ",O:".toList ++ d2 =
      'O' :: ':' :: (d1 ++ ',' :: ('O' :: ':' :: d2)) := by
    intro d1 d2
    show ['O', ':'] ++ d1 ++ [',', 'O', ':'] ++ d2 = _
    simp
  have eT : ∀ f1 f2 : List Char, "T:".toList ++ f1 ++ ",T:".toList ++ f2 =
      'T' :: ':' :: (f1 ++ ',' :: ('T' :: ':' :: f2)) := by
    intro f1 f2
    show ['T', ':'] ++ f1 ++ [',', 'T', ':'] ++ f2 = _
    simp
  refine ⟨?_, ?_, ?_⟩
  · intro d1 d2 hd hall1 _
    rw [eH d1 d2, eO d1 d2]
    exact ⟨matchKey_at_head 'H' Char.isDigit d1 _ hd hall1 (by decide),
      matchKey_at_head 'O' Char.isDigit d1 _ hd hall1 (by decide)⟩
  · intro f1 f2 hf hall1 _
    rw [eT f1 f2]
    exact matchKey_at_head 'T' isFloatChar f1 _ hf hall1 (by decide)
  · intro fHR fT fS s ts d1 d2 hd hall1 hall2
    rw [eH d1 d2]
    have htrim : jsTrim ('H' :: ':' :: (d1 ++ ',' :: ('H' :: ':' :: d2))) =
        'H' :: ':' :: (d1 ++ ',' :: ('H' :: ':' :: d2)) := by
      apply jsTrim_eq_self
      intro c hc
      simp only [List.mem_cons, List.mem_append] at hc
      rcases hc with rfl | rfl | h | rfl | rfl | rfl | h
      · decide
      · decide
      · exact isJsSpace_false_of_digit (hall1 _ h)
      · decide
      · decide
      · decide
      · exact isJsSpace_false_of_digit (hall2 _ h)
    have hT : 'T' ∉ 'H' :: ':' :: (d1 ++ ',' :: ('H' :: ':' :: d2)) := by
      intro hm
      simp only [List.mem_cons, List.mem_append] at hm
      rcases hm with h | h | h | h | h | h | h
      · exact absurd h (by decide)
      · exact absurd h (by decide)
      · exact absurd (hall1 _ h) (by decide)
      · exact absurd h (by decide)
      · exact absurd h (by decide)
      · exact absurd h (by decide)
      · exact absurd (hall2 _ h) (by decide)
    have hO : 'O' ∉ 'H' :: ':' :: (d1 ++ ',' :: ('H' :: ':' :: d2)) := by
      intro hm
      simp only [List.mem_cons, List.mem_append] at hm
      rcases hm with h | h | h | h | h | h | h
      · exact absurd h (by decide)
      · exact absurd h (by decide)
      · exact absurd (hall1 _ h) (by decide)
      · exact absurd h (by decide)
      · exact absurd h (by decide)
      · exact absurd h (by decide)
      · exact absurd (hall2 _ h) (by decide)
    have m1 : hrMatch (jsTrim ('H' :: ':' :: (d1 ++ ',' :: ('H' :: ':' :: d2)))) =
        some d1 := by
      rw [htrim]
      exact matchKey_at_head 'H' Char.isDigit d1 _ hd hall1 (by decide)
    have m2 : tempMatch (jsTrim ('H' :: ':' :: (d1 ++ ',' :: ('H' :: ':' :: d2)))) =
        none := by
      rw [htrim]
      exact matchKey_none_of_not_mem 'T' isFloatChar _ hT
    have m3 : spo2Match (jsTrim ('H' :: ':' :: (d1 ++ ',' :: ('H' :: ':' :: d2)))) =
        none := by
      rw [htrim]
      exact matchKey_none_of_not_mem 'O' Char.isDigit _ hO
    simp only [handleCharacteristicValueChanged, m1, m2, m3, Option.isSome_some,
      Option.isSome_none, Bool.true_or, Bool.or_false, if_true]

/-- Witness for C9 at the spec's example `H:70,H:200` (and the analogous
`O:` payload). -/
theorem c9_witness :
    ((['7', '0'] : List Char) ≠ [] ∧ (∀ c ∈ ['7', '0'], Char.isDigit c = true) ∧
      (∀ c ∈ ['2', '0', '0'], Char.isDigit c = true)) ∧
    hrMatch ("H:".toList ++ ['7', '0'] ++ ",H:".toList ++ ['2', '0', '0']) =
      some ['7', '0'] ∧
    spo2Match ("O:".toList ++ ['7', '0'] ++ ",O:".toList ++ ['2', '0', '0']) =
      some ['7', '0'] :=
  ⟨⟨by decide, by decide, by decide⟩,
    c9_first_occurrence_wins.1 ['7', '0'] ['2', '0', '0'] (by decide) (by decide)
      (by decide)⟩

/-! ### C3 -/

/-- C3 counterexample: the state with both `isConnected` and `isDemoMode`
true IS reachable — a successful connect followed by one press of the
demo-toggle button (which does not disconnect) produces it, so the claimed
mutual exclusion fails on the code. -/
theorem c3_counterexample :
    uiRun initUi [UiEvent.connectOk, UiEvent.demoToggle] =
      some (⟨true, true⟩ : UiState) ∧
    (⟨true, true⟩ : UiState).isConnected = true ∧
    (⟨true, true⟩ : UiState).isDemoMode = true := by
  exact ⟨rfl, rfl, rfl⟩

lemma uiStepExclusive_preserves : ∀ (s : UiState) (e : UiEvent) (s2 : UiState),
    uiStepExclusive s e = some s2 →
    (s.isConnected && s.isDemoMode) = false →
    (s2.isConnected && s2.isDemoMode) = false := by decide

/-- C3 amended: mutual exclusion holds only under the discipline the spec
describes — the demo toggle is never pressed while a hardware connection is
active (`uiStepExclusive`). Under the code's actual transitions the toggle
while connected yields both flags true (see the counterexample). -/
theorem c3_amended_mutual_exclusion (evs : List UiEvent) (s : UiState)
    (h : uiRunExclusive initUi evs = some s) :
    ¬(s.isConnected = true ∧ s.isDemoMode = true) := by
  have key : ∀ (evs2 : List UiEvent) (s0 s1 : UiState),
      (s0.isConnected && s0.isDemoMode) = false →
      runWith uiStepExclusive s0 evs2 = some s1 →
      (s1.isConnected && s1.isDemoMode) = false := by
    intro evs2
    induction evs2 with
    | nil =>
      intro s0 s1 h0 hrun
      simp only [runWith] at hrun
      obtain rfl : s0 = s1 := by simpa using hrun
      exact h0
    | cons e es ih =>
      intro s0 s1 h0 hrun
      simp only [runWith] at hrun
      cases he : uiStepExclusive s0 e with
      | none => rw [he] at hrun; simp at hrun
      | some sm =>
        rw [he] at hrun
        exact ih sm s1 (uiStepExclusive_preserves s0 e sm he h0) hrun
  have hb := key evs initUi s rfl h
  intro hc
  rw [hc.1, hc.2] at hb
  simp at hb

/-- Witness for C3's amended theorem: the trace consisting of one successful
connect, run under the exclusive discipline. -/
theorem c3_amended_witness :
    uiRunExclusive initUi [UiEvent.connectOk] = some (⟨true, false⟩ : UiState) ∧
    ¬((⟨true, false⟩ : UiState).isConnected = true ∧
      (⟨true, false⟩ : UiState).isDemoMode = true) :=
  ⟨rfl, c3_amended_mutual_exclusion [UiEvent.connectOk] ⟨true, false⟩ rfl⟩

/-! ### C4 -/

/-- C4 counterexample: on payload `T:.` the code's temperature pattern
`/T:([\d.]+)/` matches with capture `"."`, which does not have the
spec-asserted shape `<digits>[.<digits>]`, and parsing it yields NaN. -/
theorem c4_counterexample :
    tempMatch ("T:.".toList) = some ['.'] ∧ specTempShape ['.'] = false ∧
    parseFloatQ ['.'] = none := by
  exact ⟨by decide, by decide, by decide⟩

lemma parseFloatQ_isSome_of_digits (c : List Char)
    (h : c.takeWhile Char.isDigit ≠ []) : (parseFloatQ c).isSome = true := by
  simp only [parseFloatQ]
  split <;> simp_all

/-- C4 amended: a matching temperature capture is a nonempty string over the
class `[\d.]` (digits and dots) — not necessarily of the shape
`<digits>[.<digits>]` — and whenever it does have that shape, parsing cannot
yield NaN. -/
theorem c4_amended_capture_class (p c : List Char)
    (h : tempMatch p = some c) :
    (c ≠ [] ∧ ∀ ch ∈ c, isFloatChar ch = true) ∧
    (specTempShape c = true → (parseFloatQ c).isSome = true) := by
  refine ⟨matchKey_sound 'T' isFloatChar p c h, ?_⟩
  intro hshape
  simp only [specTempShape, Bool.and_eq_true, Bool.not_eq_true'] at hshape
  have h1 := hshape.1
  refine parseFloatQ_isSome_of_digits c (fun hnil => ?_)
  rw [hnil] at h1
  simp at h1

/-- Witness for C4's amended theorem at the well-formed payload `T:36.5`. -/
theorem c4_amended_witness :
    tempMatch ("T:36.5".toList) = some ['3', '6', '.', '5'] ∧
    (((['3', '6', '.', '5'] : List Char) ≠ [] ∧
      ∀ ch ∈ (['3', '6', '.', '5'] : List Char), isFloatChar ch = true) ∧
     (specTempShape ['3', '6', '.', '5'] = true →
       (parseFloatQ ['3', '6', '.', '5']).isSome = true)) :=
  ⟨by decide,
    c4_amended_capture_class ("T:36.5".toList) ['3', '6', '.', '5'] (by decide)⟩

/-! ### C7 -/

/-- C7 counterexample: a failed connection attempt does NOT return all other
UI state to its pre-attempt value. A failure at the device-request step has
already appended a log entry, and a failure after device selection leaves
`device` set to the selected device. -/
theorem c7_counterexample :
    (connectBluetooth initialState "12:00:00"
        (ConnectOutcome.requestFail ⟨"Error: cancelled", "cancelled"⟩)).1.logs ≠
      initialState.logs ∧
    (connectBluetooth initialState "12:00:00"
        (ConnectOutcome.gattFail "BT05" ⟨"Error: fail", "fail"⟩)).1.device ≠
      initialState.device := by
  exact ⟨by decide, by decide⟩

/-- C7 amended: on every failing outcome the error message is surfaced
exactly once, and `isConnected`, `isDemoMode`, the Window and the three
current values are unchanged; `logs` and `device`, however, keep the changes
made before the failure point (see the counterexample). -/
theorem c7_amended_failure_effects (s : AppState) (ts : String)
    (o : ConnectOutcome) (h : o.failed = true) :
    (connectBluetooth s ts o).2 = 1 ∧
    ((connectBluetooth s ts o).1.errorMsg).isSome = true ∧
    (connectBluetooth s ts o).1.isConnected = s.isConnected ∧
    (connectBluetooth s ts o).1.isDemoMode = s.isDemoMode ∧
    (connectBluetooth s ts o).1.data = s.data ∧
    (connectBluetooth s ts o).1.currentHR = s.currentHR ∧
    (connectBluetooth s ts o).1.currentTemp = s.currentTemp ∧
    (connectBluetooth s ts o).1.currentSpO2 = s.currentSpO2 := by
  cases o with
  | ok dev => simp [ConnectOutcome.failed] at h
  | noApi => simp [connectBluetooth, addLog]
  | requestFail e => simp [connectBluetooth, addLog]
  | gattFail dev e => simp [connectBluetooth, addLog]
  | notifyFail dev e => simp [connectBluetooth, addLog]

/-- Witness for C7's amended theorem at the missing-API failure from the
initial state. -/
theorem c7_witness :
    (ConnectOutcome.noApi).failed = true ∧
    ((connectBluetooth initialState "09:00:00" ConnectOutcome.noApi).2 = 1 ∧
     ((connectBluetooth initialState "09:00:00"
        ConnectOutcome.noApi).1.errorMsg).isSome = true ∧
     (connectBluetooth initialState "09:00:00"
        ConnectOutcome.noApi).1.isConnected = initialState.isConnected ∧
     (connectBluetooth initialState "09:00:00"
        ConnectOutcome.noApi).1.isDemoMode = initialState.isDemoMode ∧
     (connectBluetooth initialState "09:00:00"
        ConnectOutcome.noApi).1.data = initialState.data ∧
     (connectBluetooth initialState "09:00:00"
        ConnectOutcome.noApi).1.currentHR = initialState.currentHR ∧
     (connectBluetooth initialState "09:00:00"
        ConnectOutcome.noApi).1.currentTemp = initialState.currentTemp ∧
     (connectBluetooth initialState "09:00:00"
        ConnectOutcome.noApi).1.currentSpO2 = initialState.currentSpO2) :=
  ⟨rfl, c7_amended_failure_effects initialState "09:00:00" ConnectOutcome.noApi rfl⟩

/-! ### Helper lemmas about the demo generator -/

lemma demoTick_hr (d : DemoState) (r : Rand) :
    (demoTick d r).2.1 =
      max 60 (min 110 (d.mockHR + (⌊(5 : ℚ) * r.rHR⌋ - 2))) := rfl

lemma demoTick_temp (d : DemoState) (r : Rand) :
    (demoTick d r).2.2.1 =
      toFixed1 (max 36 (min (373 / 10)
        (d.mockTemp + (r.rTemp * (2 / 10) - 1 / 10)))) := rfl

lemma demoTick_ox (d : DemoState) (r : Rand) :
    (demoTick d r).2.2.2 =
      if (7 : ℚ) / 10 < r.rOx then
        max 95 (min 100 (d.mockSpO2 + if (1 : ℚ) / 2 < r.rDir then 1 else -1))
      else d.mockSpO2 := rfl

lemma demoTick_state (d : DemoState) (r : Rand) :
    (demoTick d r).1 =
      ⟨max 60 (min 110 (d.mockHR + (⌊(5 : ℚ) * r.rHR⌋ - 2))),
       max 36 (min (373 / 10) (d.mockTemp + (r.rTemp * (2 / 10) - 1 / 10))),
       if (7 : ℚ) / 10 < r.rOx then
         max 95 (min 100 (d.mockSpO2 + if (1 : ℚ) / 2 < r.rDir then 1 else -1))
       else d.mockSpO2⟩ := rfl

lemma floorChange_bounds {x : ℚ} (h0 : 0 ≤ x) (h1 : x < 1) :
    -2 ≤ ⌊(5 : ℚ) * x⌋ - 2 ∧ ⌊(5 : ℚ) * x⌋ - 2 ≤ 2 := by
  have hl : (0 : ℤ) ≤ ⌊(5 : ℚ) * x⌋ := by
    apply Int.le_floor.mpr
    push_cast
    linarith
  have hu : ⌊(5 : ℚ) * x⌋ < 5 := by
    apply Int.floor_lt.mpr
    push_cast
    linarith
  omega

lemma toFixed1_bounds {t : ℚ} (h1 : 36 ≤ t) (h2 : t ≤ 373 / 10) :
    36 ≤ toFixed1 t ∧ toFixed1 t ≤ 373 / 10 ∧
    ∃ n : ℤ, toFixed1 t = (n : ℚ) / 10 := by
  have hr := abs_le.mp (abs_sub_round ((10 : ℚ) * t))
  have hlz : (360 : ℤ) ≤ round ((10 : ℚ) * t) := by
    have hq : (359 : ℚ) < ((round ((10 : ℚ) * t) : ℤ) : ℚ) := by linarith
    have hz : (359 : ℤ) < round ((10 : ℚ) * t) := by exact_mod_cast hq
    omega
  have huz : round ((10 : ℚ) * t) ≤ 373 := by
    have hq : ((round ((10 : ℚ) * t) : ℤ) : ℚ) < 374 := by linarith
    have hz : round ((10 : ℚ) * t) < 374 := by exact_mod_cast hq
    omega
  have hlq : (360 : ℚ) ≤ ((round ((10 : ℚ) * t) : ℤ) : ℚ) := by exact_mod_cast hlz
  have huq : ((round ((10 : ℚ) * t) : ℤ) : ℚ) ≤ 373 := by exact_mod_cast huz
  refine ⟨?_, ?_, ⟨round ((10 : ℚ) * t), rfl⟩⟩
  · unfold toFixed1
    linarith
  · unfold toFixed1
    linarith

lemma demoTick_inv (d : DemoState) (r : Rand) (_hv : r.valid) (hd : DemoInv d) :
    DemoInv (demoTick d r).1 := by
  obtain ⟨h1, h2, h3, h4, h5, h6⟩ := hd
  rw [demoTick_state]
  refine ⟨?_, ?_, ?_, ?_, ?_, ?_⟩
  · exact le_max_left _ _
  · exact max_le (by norm_num) (min_le_left _ _)
  · exact le_max_left _ _
  · exact max_le (by norm_num) (min_le_left _ _)
  · show 95 ≤ (if (7 : ℚ) / 10 < r.rOx then
        max 95 (min 100 (d.mockSpO2 + if (1 : ℚ) / 2 < r.rDir then 1 else -1))
      else d.mockSpO2)
    split_ifs with hOx hDir
    · exact le_max_left _ _
    · exact le_max_left _ _
    · exact h5
  · show (if (7 : ℚ) / 10 < r.rOx then
        max 95 (min 100 (d.mockSpO2 + if (1 : ℚ) / 2 < r.rDir then 1 else -1))
      else d.mockSpO2) ≤ 100
    split_ifs with hOx hDir
    · exact max_le (by norm_num) (min_le_left _ _)
    · exact max_le (by norm_num) (min_le_left _ _)
    · exact h6

lemma demoInit_inv : DemoInv demoInit := by
  refine ⟨?_, ?_, ?_, ?_, ?_, ?_⟩ <;> norm_num [demoInit]

lemma demoRun_inv (rs : List Rand) (hall : ∀ q ∈ rs, q.valid) :
    DemoInv (demoRun rs) := by
  have key : ∀ (l : List Rand) (d : DemoState), (∀ q ∈ l, q.valid) → DemoInv d →
      DemoInv (l.foldl (fun s r => (demoTick s r).1) d) := by
    intro l
    induction l with
    | nil => exact fun d _ hd => hd
    | cons q l ih =>
      intro d hq hd
      exact ih _ (fun x hx => hq x (List.mem_cons_of_mem q hx))
        (demoTick_inv d q (hq q (List.mem_cons_self q l)) hd)
  exact key rs demoInit hall demoInit_inv

/-- One tick from a state with the initial heart-rate/temperature baselines
and random draws that leave them unchanged: only the oxygen walks. -/
lemma demoTick_fixed_state (n : ℤ) (rd : ℚ) :
    (demoTick ⟨75, 365 / 10, n⟩ ⟨2 / 5, 1 / 2, 9 / 10, rd⟩).1 =
      ⟨75, 365 / 10, max 95 (min 100 (n + if (1 : ℚ) / 2 < rd then 1 else -1))⟩ := by
  rw [demoTick_state]
  have hf : (⌊(5 : ℚ) * ((2 : ℚ) / 5)⌋ : ℤ) = 2 := by
    rw [show (5 : ℚ) * ((2 : ℚ) / 5) = ((2 : ℤ) : ℚ) by norm_num, Int.floor_intCast]
  simp only [hf, DemoState.mk.injEq]
  refine ⟨?_, ?_, ?_⟩
  · norm_num [min_def, max_def]
  · norm_num [min_def, max_def]
  · norm_num

lemma oxChangeVolume :
    MeasureTheory.volume {x : ℝ | x ∈ Set.Ico (0 : ℝ) 1 ∧ (7 : ℝ) / 10 < x} =
      ENNReal.ofReal (3 / 10) := by
  have hset : {x : ℝ | x ∈ Set.Ico (0 : ℝ) 1 ∧ (7 : ℝ) / 10 < x} =
      Set.Ioo ((7 : ℝ) / 10) 1 := by
    ext x
    simp only [Set.mem_setOf_eq, Set.mem_Ico, Set.mem_Ioo]
    constructor
    · rintro ⟨⟨_, hx1⟩, hx7⟩
      exact ⟨hx7, hx1⟩
    · rintro ⟨hx7, hx1⟩
      exact ⟨⟨by linarith, hx1⟩, hx7⟩
  rw [hset, Real.volume_Ioo]
  norm_num

lemma demoReach_up :
    (demoRun [⟨2 / 5, 1 / 2, 9 / 10, 9 / 10⟩,
      ⟨2 / 5, 1 / 2, 9 / 10, 9 / 10⟩]).mockSpO2 = 100 := by
  show (demoTick (demoTick demoInit ⟨2 / 5, 1 / 2, 9 / 10, 9 / 10⟩).1
    ⟨2 / 5, 1 / 2, 9 / 10, 9 / 10⟩).1.mockSpO2 = 100
  rw [show (demoInit : DemoState) = ⟨75, 365 / 10, 98⟩ from rfl,
    demoTick_fixed_state]
  rw [show max 95 (min 100 ((98 : ℤ) +
      if (1 : ℚ) / 2 < (9 : ℚ) / 10 then 1 else -1)) = 99 from by
    norm_num [min_def, max_def]]
  rw [demoTick_fixed_state]
  norm_num [min_def, max_def]

lemma demoReach_down :
    (demoRun [⟨2 / 5, 1 / 2, 9 / 10, 0⟩, ⟨2 / 5, 1 / 2, 9 / 10, 0⟩,
      ⟨2 / 5, 1 / 2, 9 / 10, 0⟩]).mockSpO2 = 95 := by
  show (demoTick (demoTick (demoTick demoInit ⟨2 / 5, 1 / 2, 9 / 10, 0⟩).1
    ⟨2 / 5, 1 / 2, 9 / 10, 0⟩).1 ⟨2 / 5, 1 / 2, 9 / 10, 0⟩).1.mockSpO2 = 95
  rw [show (demoInit : DemoState) = ⟨75, 365 / 10, 98⟩ from rfl,
    demoTick_fixed_state]
  rw [show max 95 (min 100 ((98 : ℤ) +
      if (1 : ℚ) / 2 < (0 : ℚ) then 1 else -1)) = 97 from by
    norm_num [min_def, max_def]]
  rw [demoTick_fixed_state]
  rw [show max 95 (min 100 ((97 : ℤ) +
      if (1 : ℚ) / 2 < (0 : ℚ) then 1 else -1)) = 96 from by
    norm_num [min_def, max_def]]
  rw [demoTick_fixed_state]
  norm_num [min_def, max_def]

/-! ### C5 -/

/-- C5: properties of the demo-mode generator. From any in-range closure
state and valid random draws, one tick emits a heart rate in `[60,110]`
moving by at most 2 from the baseline, a temperature in `[36, 37.3]` with
exactly one fractional digit, and an oxygen value in `[95,100]` that steps
`±1` (clamped) exactly when the draw exceeds `0.7` — an event of measure
`0.3` for a uniform draw on `[0,1)` — and is held otherwise; the in-range
invariant holds initially and is preserved along every run, and the
inclusive oxygen bounds 100 and 95 are both reachable. -/
theorem c5_demo_generator_properties (d : DemoState) (r : Rand)
    (hv : r.valid) (hd : DemoInv d) :
    (60 ≤ (demoTick d r).2.1 ∧ (demoTick d r).2.1 ≤ 110 ∧
      (demoTick d r).2.1 - d.mockHR ≤ 2 ∧ d.mockHR - (demoTick d r).2.1 ≤ 2) ∧
    ((36 : ℚ) ≤ (demoTick d r).2.2.1 ∧ (demoTick d r).2.2.1 ≤ 373 / 10 ∧
      ∃ n : ℤ, (demoTick d r).2.2.1 = (n : ℚ) / 10) ∧
    (95 ≤ (demoTick d r).2.2.2 ∧ (demoTick d r).2.2.2 ≤ 100 ∧
      ((7 : ℚ) / 10 < r.rOx →
        (demoTick d r).2.2.2 =
          max 95 (min 100 (d.mockSpO2 + if (1 : ℚ) / 2 < r.rDir then 1 else -1))) ∧
      (¬(7 : ℚ) / 10 < r.rOx → (demoTick d r).2.2.2 = d.mockSpO2)) ∧
    DemoInv (demoTick d r).1 ∧
    (∀ rs : List Rand, (∀ q ∈ rs, q.valid) → DemoInv (demoRun rs)) ∧
    MeasureTheory.volume {x : ℝ | x ∈ Set.Ico (0 : ℝ) 1 ∧ (7 : ℝ) / 10 < x} =
      ENNReal.ofReal (3 / 10) ∧
    (∃ rs : List Rand, (∀ q ∈ rs, q.valid) ∧ (demoRun rs).mockSpO2 = 100) ∧
    (∃ rs : List Rand, (∀ q ∈ rs, q.valid) ∧ (demoRun rs).mockSpO2 = 95) := by
  obtain ⟨h1, h2, h3, h4, h5, h6⟩ := hd
  obtain ⟨v1, v2, v3, v4, v5, v6, v7, v8⟩ := hv
  have hc := floorChange_bounds v1 v2
  refine ⟨?_, ?_, ?_,
    demoTick_inv d r ⟨v1, v2, v3, v4, v5, v6, v7, v8⟩ ⟨h1, h2, h3, h4, h5, h6⟩,
    fun rs hall => demoRun_inv rs hall, oxChangeVolume, ?_, ?_⟩
  · rw [demoTick_hr]
    omega
  · rw [demoTick_temp]
    exact toFixed1_bounds (le_max_left _ _)
      (max_le (by norm_num) (min_le_left _ _))
  · rw [demoTick_ox]
    refine ⟨?_, ?_, fun hOx => if_pos hOx, fun hOx => if_neg hOx⟩
    · split_ifs with hOx hDir
      · exact le_max_left _ _
      · exact le_max_left _ _
      · exact h5
    · split_ifs with hOx hDir
      · exact max_le (by norm_num) (min_le_left _ _)
      · exact max_le (by norm_num) (min_le_left _ _)
      · exact h6
  · refine ⟨[⟨2 / 5, 1 / 2, 9 / 10, 9 / 10⟩, ⟨2 / 5, 1 / 2, 9 / 10, 9 / 10⟩],
      ?_, demoReach_up⟩
    intro q hq
    simp only [List.mem_cons, List.not_mem_nil, or_false] at hq
    rcases hq with rfl | rfl <;>
      exact ⟨by norm_num, by norm_num, by norm_num, by norm_num, by norm_num,
        by norm_num, by norm_num, by norm_num⟩
  · refine ⟨[⟨2 / 5, 1 / 2, 9 / 10, 0⟩, ⟨2 / 5, 1 / 2, 9 / 10, 0⟩,
      ⟨2 / 5, 1 / 2, 9 / 10, 0⟩], ?_, demoReach_down⟩
    intro q hq
    simp only [List.mem_cons, List.not_mem_nil, or_false] at hq
    rcases hq with rfl | rfl | rfl <;>
      exact ⟨by norm_num, by norm_num, by norm_num, by norm_num, by norm_num,
        by norm_num, by norm_num, by norm_num⟩

/-- Witness for C5 at the initial closure state and the draw
`(0.5, 0.5, 0.5, 0.5)`. -/
theorem c5_witness :
    ((⟨1 / 2, 1 / 2, 1 / 2, 1 / 2⟩ : Rand).valid ∧ DemoInv demoInit) ∧
    ((60 ≤ (demoTick demoInit ⟨1 / 2, 1 / 2, 1 / 2, 1 / 2⟩).2.1 ∧
      (demoTick demoInit ⟨1 / 2, 1 / 2, 1 / 2, 1 / 2⟩).2.1 ≤ 110 ∧
      (demoTick demoInit ⟨1 / 2, 1 / 2, 1 / 2, 1 / 2⟩).2.1 - demoInit.mockHR ≤ 2 ∧
      demoInit.mockHR - (demoTick demoInit ⟨1 / 2, 1 / 2, 1 / 2, 1 / 2⟩).2.1 ≤ 2) ∧
    ((36 : ℚ) ≤ (demoTick demoInit ⟨1 / 2, 1 / 2, 1 / 2, 1 / 2⟩).2.2.1 ∧
      (demoTick demoInit ⟨1 / 2, 1 / 2, 1 / 2, 1 / 2⟩).2.2.1 ≤ 373 / 10 ∧
      ∃ n : ℤ, (demoTick demoInit ⟨1 / 2, 1 / 2, 1 / 2, 1 / 2⟩).2.2.1 = (n : ℚ) / 10) ∧
    (95 ≤ (demoTick demoInit ⟨1 / 2, 1 / 2, 1 / 2, 1 / 2⟩).2.2.2 ∧
      (demoTick demoInit ⟨1 / 2, 1 / 2, 1 / 2, 1 / 2⟩).2.2.2 ≤ 100 ∧
      ((7 : ℚ) / 10 < (⟨1 / 2, 1 / 2, 1 / 2, 1 / 2⟩ : Rand).rOx →
        (demoTick demoInit ⟨1 / 2, 1 / 2, 1 / 2, 1 / 2⟩).2.2.2 =
          max 95 (min 100 (demoInit.mockSpO2 +
            if (1 : ℚ) / 2 < (⟨1 / 2, 1 / 2, 1 / 2, 1 / 2⟩ : Rand).rDir then 1
            else -1))) ∧
      (¬(7 : ℚ) / 10 < (⟨1 / 2, 1 / 2, 1 / 2, 1 / 2⟩ : Rand).rOx →
        (demoTick demoInit ⟨1 / 2, 1 / 2, 1 / 2, 1 / 2⟩).2.2.2 =
          demoInit.mockSpO2)) ∧
    DemoInv (demoTick demoInit ⟨1 / 2, 1 / 2, 1 / 2, 1 / 2⟩).1 ∧
    (∀ rs : List Rand, (∀ q ∈ rs, q.valid) → DemoInv (demoRun rs)) ∧
    MeasureTheory.volume {x : ℝ | x ∈ Set.Ico (0 : ℝ) 1 ∧ (7 : ℝ) / 10 < x} =
      ENNReal.ofReal (3 / 10) ∧
    (∃ rs : List Rand, (∀ q ∈ rs, q.valid) ∧ (demoRun rs).mockSpO2 = 100) ∧
    (∃ rs : List Rand, (∀ q ∈ rs, q.valid) ∧ (demoRun rs).mockSpO2 = 95)) :=
  ⟨⟨⟨by norm_num, by norm_num, by norm_num, by norm_num, by norm_num,
      by norm_num, by norm_num, by norm_num⟩, demoInit_inv⟩,
    c5_demo_generator_properties demoInit ⟨1 / 2, 1 / 2, 1 / 2, 1 / 2⟩
      ⟨by norm_num, by norm_num, by norm_num, by norm_num, by norm_num,
        by norm_num, by norm_num, by norm_num⟩ demoInit_inv⟩

end BioSync
